import Mathlib

/-!
Verification development for src/relabel.py (SWOT-Confluence/relabel).

The program copies dimensions and variables of a netCDF source file into a
new netCDF file with renamed groups and variables, and computes one derived
field, d_x_area, with a median-centered formula over masked arrays.

The embedding below models masked numeric arrays as lists of lists of
Option rationals (none marks a masked, i.e. missing, position), netCDF
datasets as association lists of dimensions and variables, and the Python
exception flow (KeyError / IndexError on a missing dimension or variable,
abstracted by the specification as SchemaError) with the Except monad.
-/

set_option maxRecDepth 4000

namespace Relabel

/-- A masked row: an entry is none exactly when that position is masked. -/
abbrev MRow := List (Option ℚ)

/-- A 2-D masked numeric array, indexed by time step, then cross section. -/
abbrev MArr := List MRow

/-- The unmasked values of one row, in order. -/
def unmaskedRow (r : MRow) : List ℚ := r.filterMap id

/-- All unmasked values of an array, row-major. -/
def unmaskedElems (a : MArr) : List ℚ := (a.map unmaskedRow).flatten

/-- Insert a value into an already sorted list of rationals. -/
def insertSorted (x : ℚ) : List ℚ → List ℚ
  | [] => [x]
  | y :: ys => if x ≤ y then x :: y :: ys else y :: insertSorted x ys

/-- Insertion sort on rationals. -/
def sortQ : List ℚ → List ℚ
  | [] => []
  | x :: xs => insertSorted x (sortQ xs)

/-- Median of a list of rationals, as numpy computes it: the middle element
of the sorted list for odd length, the mean of the two middle elements for
even length, and none for the empty list. -/
def medianList (xs : List ℚ) : Option ℚ :=
  let s := sortQ xs
  if s.length = 0 then none
  else if s.length % 2 = 1 then s[s.length / 2]?
  else
    match s[s.length / 2 - 1]?, s[s.length / 2]? with
    | some a, some b => some ((a + b) / 2)
    | _, _ => none

/-- numpy.ma.median over the whole array: masked entries are excluded, and
the median of a fully masked array is itself masked. -/
def mmedian (a : MArr) : Option ℚ := medianList (unmaskedElems a)

/-- One position of h - median(h): masked when the entry or the median is masked. -/
def subOptScalar (e m : Option ℚ) : Option ℚ :=
  match e, m with
  | some v, some mv => some (v - mv)
  | _, _ => none

/-- One position of median(w) - w: masked when the median or the entry is masked. -/
def scalarSubOpt (m e : Option ℚ) : Option ℚ :=
  match m, e with
  | some mv, some v => some (mv - v)
  | _, _ => none

/-- One position of dH / 2, mask-preserving. -/
def halfOpt (e : Option ℚ) : Option ℚ := e.map (fun v => v / 2)

/-- Masked product of two entries: masked when either factor is masked. -/
def mulOpt (x y : Option ℚ) : Option ℚ :=
  match x, y with
  | some a, some b => some (a * b)
  | _, _ => none

/-- Elementwise masked product of two rows. -/
def mulRow (r s : MRow) : MRow := List.zipWith mulOpt r s

/-- Elementwise masked product of two arrays. -/
def mulArr (a b : MArr) : MArr := List.zipWith mulRow a b

/-- Shallow embedding of calculate_dxa (src/relabel.py, lines 138-143):
dH = h - median(h); result = (median(w) - w) * (dH / 2), with both medians
taken once over the entire array and broadcast. -/
def calculate_dxa (h w : MArr) : MArr :=
  let mh := mmedian h
  let mw := mmedian w
  let dH := h.map (fun r => r.map (fun e => subOptScalar e mh))
  mulArr (w.map (fun r => r.map (fun e => scalarSubOpt mw e)))
    (dH.map (fun r => r.map halfOpt))

/-- Entry of a 2-D masked array: outer none means the position does not
exist, some none means present but masked, some (some v) means value v. -/
def entryAt (a : MArr) (t x : Nat) : Option (Option ℚ) :=
  a[t]?.bind (fun r => r[x]?)

/-- The shape of a 2-D array: the list of its row lengths. -/
def shape (a : MArr) : List Nat := a.map List.length

@[simp] lemma subOptScalar_none_left (m : Option ℚ) : subOptScalar none m = none := rfl

@[simp] lemma subOptScalar_none_right (e : Option ℚ) : subOptScalar e none = none := by
  cases e <;> rfl

@[simp] lemma scalarSubOpt_none_left (e : Option ℚ) : scalarSubOpt none e = none := rfl

@[simp] lemma scalarSubOpt_none_right (m : Option ℚ) : scalarSubOpt m none = none := by
  cases m <;> rfl

@[simp] lemma mulOpt_none_left (y : Option ℚ) : mulOpt none y = none := rfl

@[simp] lemma mulOpt_none_right (x : Option ℚ) : mulOpt x none = none := by
  cases x <;> rfl

@[simp] lemma halfOpt_none : halfOpt none = none := rfl

lemma getElem?_zipWithOpt {α β γ : Type} (f : α → β → γ) :
    ∀ (a : List α) (b : List β) (n : Nat),
      (List.zipWith f a b)[n]? = a[n]?.bind (fun x => b[n]?.map (f x))
  | [], b, n => by cases b <;> cases n <;> simp
  | x :: xs, [], n => by cases n <;> simp
  | x :: xs, y :: ys, 0 => by simp
  | x :: xs, y :: ys, n + 1 => by simpa using getElem?_zipWithOpt f xs ys n

lemma entryAt_mapIn (g : Option ℚ → Option ℚ) (a : MArr) (t x : Nat) :
    entryAt (a.map (fun r => r.map g)) t x = (entryAt a t x).map g := by
  unfold entryAt
  rw [List.getElem?_map]
  cases a[t]? <;> simp [List.getElem?_map]

lemma entryAt_mulArr (a b : MArr) (t x : Nat) :
    entryAt (mulArr a b) t x
      = (entryAt a t x).bind (fun ea => (entryAt b t x).map (mulOpt ea)) := by
  unfold entryAt mulArr
  rw [getElem?_zipWithOpt]
  cases a[t]? with
  | none => simp
  | some r =>
    cases b[t]? with
    | none => cases r[x]? <;> simp
    | some s => simp [mulRow, getElem?_zipWithOpt]

lemma entryAt_calculate (h w : MArr) (t x : Nat) :
    entryAt (calculate_dxa h w) t x
      = (entryAt w t x).bind (fun ew =>
          (entryAt h t x).map (fun eh =>
            mulOpt (scalarSubOpt (mmedian w) ew)
              (halfOpt (subOptScalar eh (mmedian h))))) := by
  unfold calculate_dxa
  rw [entryAt_mulArr, entryAt_mapIn, entryAt_mapIn, entryAt_mapIn]
  cases entryAt w t x <;> cases entryAt h t x <;> simp

lemma shape_mapIn (g : Option ℚ → Option ℚ) (a : MArr) :
    shape (a.map (fun r => r.map g)) = shape a := by
  simp [shape, List.map_map, Function.comp]

lemma shape_mulArr (a b : MArr) (hs : shape a = shape b) :
    shape (mulArr a b) = shape a := by
  induction a generalizing b with
  | nil => simp [mulArr, shape]
  | cons r as ih =>
    cases b with
    | nil => simp [shape] at hs
    | cons s bs =>
      simp only [shape, List.map_cons, List.cons.injEq] at hs
      obtain ⟨h1, h2⟩ := hs
      simp only [mulArr, List.zipWith_cons_cons, shape, List.map_cons, List.cons.injEq]
      constructor
      · simp [mulRow, List.length_zipWith, h1]
      · have := ih bs (by simpa [shape] using h2)
        simpa [mulArr, shape] using this

lemma shape_calculate (h w : MArr) (hs : shape h = shape w) :
    shape (calculate_dxa h w) = shape h := by
  unfold calculate_dxa
  rw [shape_mulArr, shape_mapIn]
  · exact hs.symm
  · rw [shape_mapIn, shape_mapIn, shape_mapIn]
    exact hs.symm

/-- Literal input h of the specification example. -/
def exH : MArr := [[some 1, some 3], [some 5, some 7]]

/-- Literal input w of the specification example. -/
def exW : MArr := [[some 2, some 4], [some 6, some 8]]

/-- Expected output of the specification example. -/
def exRes : MArr := [[some (-9/2), some (-1/2)], [some (-1/2), some (-9/2)]]

/-- Per-entry formula of calculate_dxa: every unmasked output entry at
position (t, x) is (median w - w t x) * ((h t x - median h) / 2). -/
def dxaFormulaProp (h w : MArr) : Prop :=
  ∀ t x v, entryAt (calculate_dxa h w) t x = some (some v) →
    ∃ hv wv mh mw,
      entryAt h t x = some (some hv) ∧ entryAt w t x = some (some wv) ∧
      mmedian h = some mh ∧ mmedian w = some mw ∧
      v = (mw - wv) * ((hv - mh) / 2)

lemma dxaFormula (h w : MArr) : dxaFormulaProp h w := by
  intro t x v hv0
  rw [entryAt_calculate] at hv0
  cases hw1 : entryAt w t x with
  | none => rw [hw1] at hv0; exact Option.noConfusion hv0
  | some ew =>
    rw [hw1] at hv0
    cases hh1 : entryAt h t x with
    | none => rw [hh1] at hv0; exact Option.noConfusion hv0
    | some eh =>
      rw [hh1] at hv0
      cases hmw : mmedian w with
      | none =>
        rw [hmw] at hv0
        exact Option.noConfusion (Option.some.inj hv0)
      | some mwv =>
        rw [hmw] at hv0
        cases hew : ew with
        | none =>
          rw [hew] at hv0
          exact Option.noConfusion (Option.some.inj hv0)
        | some wv =>
          rw [hew] at hv0
          cases heh : eh with
          | none =>
            rw [heh] at hv0
            exact Option.noConfusion (Option.some.inj hv0)
          | some hvv =>
            rw [heh] at hv0
            cases hmh : mmedian h with
            | none =>
              rw [hmh] at hv0
              exact Option.noConfusion (Option.some.inj hv0)
            | some mhv =>
              rw [hmh] at hv0
              have hv1 : some (some ((mwv - wv) * ((hvv - mhv) / 2)))
                  = some (some v) := hv0
              exact ⟨hvv, wv, mhv, mwv, rfl, rfl, rfl, rfl,
                (Option.some.inj (Option.some.inj hv1)).symm⟩

lemma calculate_example : calculate_dxa exH exW = exRes := by
  norm_num [calculate_dxa, exH, exW, exRes, mmedian, unmaskedElems, unmaskedRow,
    medianList, sortQ, insertSorted, mulArr, mulRow, mulOpt, subOptScalar,
    scalarSubOpt, halfOpt]

/-- C1: for equal-shaped masked arrays h and w, calculate_dxa is
shape-preserving, every unmasked output entry at (t, x) equals
(median w - w t x) * ((h t x - median h) / 2) with both medians taken over
all unmasked elements of the whole array, and on the literal example
h = [[1, 3], [5, 7]], w = [[2, 4], [6, 8]] the result is
[[-4.5, -0.5], [-0.5, -4.5]]. -/
theorem claim_C1 (h w : MArr) (hs : shape h = shape w) :
    shape (calculate_dxa h w) = shape h
    ∧ dxaFormulaProp h w
    ∧ calculate_dxa exH exW = exRes :=
  ⟨shape_calculate h w hs, dxaFormula h w, calculate_example⟩

/-- C1 witness: the theorem applied at the literal example of the
specification. -/
theorem claim_C1_witness :
    shape exH = shape exW
    ∧ (shape (calculate_dxa exH exW) = shape exH
       ∧ dxaFormulaProp exH exW
       ∧ calculate_dxa exH exW = exRes) :=
  ⟨by decide, claim_C1 exH exW (by decide)⟩

/-- Dropping the masked entries of every row entirely. -/
def dropMasked (a : MArr) : MArr := a.map (fun r => r.filter (fun e => e.isSome))

lemma unmaskedRow_filter (r : MRow) :
    unmaskedRow (r.filter (fun e => e.isSome)) = unmaskedRow r := by
  induction r with
  | nil => rfl
  | cons e rest ih => cases e <;> simp [unmaskedRow, List.filter, ih] <;>
      simpa [unmaskedRow] using ih

lemma unmaskedElems_dropMasked (a : MArr) :
    unmaskedElems (dropMasked a) = unmaskedElems a := by
  induction a with
  | nil => rfl
  | cons r as ih =>
    show unmaskedRow (r.filter (fun e => e.isSome)) ++ unmaskedElems (dropMasked as)
        = unmaskedRow r ++ unmaskedElems as
    rw [unmaskedRow_filter, ih]

lemma mmedian_dropMasked (a : MArr) : mmedian (dropMasked a) = mmedian a := by
  unfold mmedian
  rw [unmaskedElems_dropMasked]

/-- C3: if a position is present in both h and w but masked in h or in w,
then calculate_dxa is masked at that position, and the medians are taken
only over the unmasked entries: dropping the masked entries of the arrays
does not change either median. -/
theorem claim_C3 (h w : MArr) (t x : Nat) (eh ew : Option ℚ)
    (hh : entryAt h t x = some eh) (hw : entryAt w t x = some ew)
    (hm : eh = none ∨ ew = none) :
    entryAt (calculate_dxa h w) t x = some none
    ∧ mmedian (dropMasked h) = mmedian h
    ∧ mmedian (dropMasked w) = mmedian w := by
  refine ⟨?_, mmedian_dropMasked h, mmedian_dropMasked w⟩
  rw [entryAt_calculate, hh, hw]
  cases hm with
  | inl h1 => subst h1; cases ew <;> simp
  | inr h1 => subst h1; simp

/-- C3 witness: a concrete pair in which position (0, 1) is masked in h
and unmasked in w, so the output is masked there. -/
theorem claim_C3_witness :
    entryAt [[some 1, none]] 0 1 = some none
    ∧ entryAt [[some 2, some 3]] 0 1 = some (some 3)
    ∧ (entryAt (calculate_dxa [[some 1, none]] [[some 2, some 3]]) 0 1 = some none
       ∧ mmedian (dropMasked [[some 1, none]]) = mmedian [[some 1, none]]
       ∧ mmedian (dropMasked [[some 2, some 3]]) = mmedian [[some 2, some 3]]) :=
  ⟨by decide, by decide,
    claim_C3 [[some 1, none]] [[some 2, some 3]] 0 1 none (some 3)
      (by decide) (by decide) (Or.inl rfl)⟩

lemma unmaskedRow_eq_nil (r : MRow) : unmaskedRow r = [] ↔ ∀ e ∈ r, e = none := by
  induction r with
  | nil => simp [unmaskedRow]
  | cons e rest ih =>
    cases e with
    | none => simpa [unmaskedRow] using ih
    | some v => simp [unmaskedRow]

lemma unmaskedElems_eq_nil (a : MArr) (ha : ∀ r ∈ a, ∀ e ∈ r, e = none) :
    unmaskedElems a = [] := by
  induction a with
  | nil => rfl
  | cons r as ih =>
    have h1 : unmaskedRow r = [] :=
      (unmaskedRow_eq_nil r).mpr (ha r (by simp))
    have h2 : unmaskedElems as = [] :=
      ih (fun r2 hr2 => ha r2 (by simp [hr2]))
    simp [unmaskedElems, h1]
    simpa [unmaskedElems] using h2

lemma mmedian_all_masked (a : MArr) (ha : ∀ r ∈ a, ∀ e ∈ r, e = none) :
    mmedian a = none := by
  unfold mmedian
  rw [unmaskedElems_eq_nil a ha]
  rfl

lemma mulRow_all_none_right (r s : MRow) (hs : ∀ e ∈ s, e = none) :
    ∀ e ∈ mulRow r s, e = none := by
  induction r generalizing s with
  | nil => simp [mulRow]
  | cons a as ih =>
    cases s with
    | nil => simp [mulRow]
    | cons b bs =>
      intro e he
      simp only [mulRow, List.zipWith_cons_cons, List.mem_cons] at he
      cases he with
      | inl h1 =>
        have hb : b = none := hs b (by simp)
        subst hb
        simp [h1]
      | inr h1 =>
        exact ih bs (fun e2 he2 => hs e2 (by simp [he2])) e h1

lemma mulRow_all_none_left (r s : MRow) (hr : ∀ e ∈ r, e = none) :
    ∀ e ∈ mulRow r s, e = none := by
  induction r generalizing s with
  | nil => simp [mulRow]
  | cons a as ih =>
    cases s with
    | nil => simp [mulRow]
    | cons b bs =>
      intro e he
      simp only [mulRow, List.zipWith_cons_cons, List.mem_cons] at he
      cases he with
      | inl h1 =>
        have ha : a = none := hr a (by simp)
        subst ha
        simp [h1]
      | inr h1 =>
        exact ih bs (fun e2 he2 => hr e2 (by simp [he2])) e h1

lemma mulArr_all_none_right (a b : MArr) (hb : ∀ r ∈ b, ∀ e ∈ r, e = none) :
    ∀ r ∈ mulArr a b, ∀ e ∈ r, e = none := by
  induction a generalizing b with
  | nil => simp [mulArr]
  | cons ra as ih =>
    cases b with
    | nil => simp [mulArr]
    | cons rb bs =>
      intro r hr
      simp only [mulArr, List.zipWith_cons_cons, List.mem_cons] at hr
      cases hr with
      | inl h1 =>
        subst h1
        exact mulRow_all_none_right ra rb (hb rb (by simp))
      | inr h1 =>
        exact ih bs (fun r2 hr2 => hb r2 (by simp [hr2])) r h1

lemma mulArr_all_none_left (a b : MArr) (ha : ∀ r ∈ a, ∀ e ∈ r, e = none) :
    ∀ r ∈ mulArr a b, ∀ e ∈ r, e = none := by
  induction a generalizing b with
  | nil => simp [mulArr]
  | cons ra as ih =>
    cases b with
    | nil => simp [mulArr]
    | cons rb bs =>
      intro r hr
      simp only [mulArr, List.zipWith_cons_cons, List.mem_cons] at hr
      cases hr with
      | inl h1 =>
        subst h1
        exact mulRow_all_none_left ra rb (ha ra (by simp))
      | inr h1 =>
        exact ih bs (fun r2 hr2 => ha r2 (by simp [hr2])) r h1

lemma mapIn_all_none (g : Option ℚ → Option ℚ) (a : MArr) (hg : ∀ e, g e = none) :
    ∀ r ∈ a.map (fun r => r.map g), ∀ e ∈ r, e = none := by
  intro r hr e he
  rcases List.mem_map.mp hr with ⟨r0, _, rfl⟩
  rcases List.mem_map.mp he with ⟨e0, _, rfl⟩
  exact hg e0

/-- C8: a fully masked h (or a fully masked w) is not an error:
calculate_dxa yields an output of the input shape in which every entry is
masked. -/
theorem claim_C8 (h w : MArr) (hs : shape h = shape w)
    (hm : (∀ r ∈ h, ∀ e ∈ r, e = none) ∨ (∀ r ∈ w, ∀ e ∈ r, e = none)) :
    shape (calculate_dxa h w) = shape h
    ∧ ∀ r ∈ calculate_dxa h w, ∀ e ∈ r, e = none := by
  refine ⟨shape_calculate h w hs, ?_⟩
  cases hm with
  | inl hmh =>
    have h0 : mmedian h = none := mmedian_all_masked h hmh
    unfold calculate_dxa
    rw [h0]
    apply mulArr_all_none_right
    intro r hr e he
    rcases List.mem_map.mp hr with ⟨r0, hr0, rfl⟩
    rcases List.mem_map.mp he with ⟨e0, he0, rfl⟩
    rcases List.mem_map.mp hr0 with ⟨r1, _, rfl⟩
    rcases List.mem_map.mp he0 with ⟨e1, _, rfl⟩
    simp
  | inr hmw =>
    have h0 : mmedian w = none := mmedian_all_masked w hmw
    unfold calculate_dxa
    rw [h0]
    apply mulArr_all_none_left
    exact mapIn_all_none _ w (fun e => by simp)

/-- C8 witness: a concrete fully masked h with an unmasked w of the same
shape yields the fully masked output. -/
theorem claim_C8_witness :
    shape [[none, none]] = shape ([[some 1, some 2]] : MArr)
    ∧ (shape (calculate_dxa [[none, none]] [[some 1, some 2]])
        = shape [[none, none]]
       ∧ ∀ r ∈ calculate_dxa [[none, none]] [[some 1, some 2]],
           ∀ e ∈ r, e = none) :=
  ⟨by decide,
    claim_C8 [[none, none]] [[some 1, some 2]] (by decide)
      (Or.inl (by decide))⟩

/-- numpy.ma.mean of one row: the mean of the unmasked entries, masked when
every entry is masked. -/
def maskedMeanRow (r : MRow) : Option ℚ :=
  let u := unmaskedRow r
  if u.length = 0 then none else some (u.sum / u.length)

/-- numpy.ma.mean along axis 1 (src/relabel.py line 127): one value per row. -/
def maskedMeanAxis1 (a : MArr) : MRow := a.map maskedMeanRow

/-- A source netCDF dataset: a title attribute, named dimensions, 1-D
variables and 2-D variables, each addressed by its slash-separated path. -/
structure SrcDataset where
  title : String
  dims : List (String × Nat)
  vars1 : List (String × MRow)
  vars2 : List (String × MArr)
deriving DecidableEq

/-- Dimension lookup in the source dataset; none models the Python KeyError. -/
def lookupDim (d : SrcDataset) (name : String) : Option Nat :=
  List.lookup name d.dims

/-- 1-D variable lookup in the source dataset. -/
def lookupVar1 (d : SrcDataset) (path : String) : Option MRow :=
  List.lookup path d.vars1

/-- 2-D variable lookup in the source dataset. -/
def lookupVar2 (d : SrcDataset) (path : String) : Option MArr :=
  List.lookup path d.vars2

/-- The error raised when a configured dimension or variable path is absent
from the source (the KeyError / IndexError of the Python code, called
SchemaError by the specification). -/
inductive SchemaError where
  | missingDim (name : String)
  | missingVar (path : String)
deriving DecidableEq

/-- Attributes attached to a created variable. -/
structure VarAttrs where
  units : Option String
  long_name : Option String
  valid_min : Option ℚ
  valid_max : Option ℚ
deriving DecidableEq

/-- A created 1-D variable: type string, dimension names, fill value,
attributes and data. -/
structure Var1 where
  dtype : String
  dims : List String
  fill_value : Option ℚ
  attrs : VarAttrs
  data : MRow
deriving DecidableEq

/-- A created 2-D variable. -/
structure Var2 where
  dtype : String
  dims : List String
  fill_value : Option ℚ
  attrs : VarAttrs
  data : MArr
deriving DecidableEq

/-- The root-group coordinate variables (create_root_vars, lines 60-85). -/
structure RootVars where
  xs_90m : Var1
  time_steps : Var1
  stageloc_1km : Var1
  reach : Var1
deriving DecidableEq

/-- The XS_Time_Series group variables (create_xs_vars, lines 87-136). -/
structure XSGroup where
  width : Var2
  wse : Var2
  h_1km : Var2
  q : Var2
  qhat : Var1
  d_x_area : Var2
deriving DecidableEq

/-- The Reach_Time_Series group variables (create_reach_vars, lines 145-185). -/
structure ReachGroup where
  q : Var2
  slope2 : Var2
  s_1km : Var2
  gridID : Var2
  hydroID : Var2
  nextDownID : Var2
deriving DecidableEq

/-- The produced destination dataset. -/
structure NewDataset where
  title : String
  dims : List (String × Nat)
  rootVars : RootVars
  xs_group : XSGroup
  reach_group : ReachGroup
deriving DecidableEq

/-- Require an optional lookup result, raising the given SchemaError when it
is absent; models the Python exception on a failed dictionary access. -/
def req {α β : Type} (o : Option α) (e : SchemaError)
    (k : α → Except SchemaError β) : Except SchemaError β :=
  match o with
  | none => .error e
  | some a => k a

lemma req_ok {α β : Type} (o : Option α) (e : SchemaError)
    (k : α → Except SchemaError β) (b : β) :
    req o e k = .ok b ↔ ∃ a, o = some a ∧ k a = .ok b := by
  cases o <;> simp [req]

/-- Embedding of create_dimensions (lines 51-58): copy the five source
dimension sizes under the new names, in source order; a missing source
dimension raises. -/
def create_dimensions (orig : SrcDataset) :
    Except SchemaError (List (String × Nat)) :=
  req (lookupDim orig "XS_90m") (.missingDim "XS_90m") fun xs =>
  req (lookupDim orig "Time steps") (.missingDim "Time steps") fun ts =>
  req (lookupDim orig "Stageloc_1km") (.missingDim "Stageloc_1km") fun sl =>
  req (lookupDim orig "Reach") (.missingDim "Reach") fun rc =>
  req (lookupDim orig "nchar") (.missingDim "nchar") fun nc =>
  .ok [("XS_90m", xs), ("Time_Steps", ts), ("Stageloc_1km", sl),
       ("Reach", rc), ("nchar", nc)]

/-- Embedding of create_root_vars (lines 60-85). -/
def create_root_vars (orig : SrcDataset) : Except SchemaError RootVars :=
  req (lookupVar1 orig "XS_90m") (.missingVar "XS_90m") fun xsD =>
  req (lookupVar1 orig "Time steps") (.missingVar "Time steps") fun tsD =>
  req (lookupVar1 orig "Stageloc_1km") (.missingVar "Stageloc_1km") fun slD =>
  req (lookupVar1 orig "Reach") (.missingVar "Reach") fun rcD =>
  .ok {
    xs_90m := {
      dtype := "i4", dims := ["XS_90m"], fill_value := none,
      attrs := { units := some "orthogonals", long_name := some "XS_90m",
                 valid_min := none, valid_max := none },
      data := xsD },
    time_steps := {
      dtype := "i4", dims := ["Time_Steps"], fill_value := none,
      attrs := { units := some "day", long_name := some "Time Steps",
                 valid_min := none, valid_max := none },
      data := tsD },
    stageloc_1km := {
      dtype := "i4", dims := ["Stageloc_1km"], fill_value := none,
      attrs := { units := some "orthogonals", long_name := some "Stageloc_1km",
                 valid_min := none, valid_max := none },
      data := slD },
    reach := {
      dtype := "i4", dims := ["Reach"], fill_value := none,
      attrs := { units := some "RiverReaches", long_name := some "Reach",
                 valid_min := none, valid_max := none },
      data := rcD } }

/-- Embedding of create_xs_vars (lines 87-136): width, wse, H_1km and Q are
copies; Qhat is the axis-1 masked mean of the just-written Q data; d_x_area
is calculate_dxa applied to the just-written H_1km data and width data. -/
def create_xs_vars (orig : SrcDataset) : Except SchemaError XSGroup :=
  req (lookupVar2 orig "XS_Timseries/W") (.missingVar "XS_Timseries/W") fun wD =>
  req (lookupVar2 orig "XS_Timseries/H_90m") (.missingVar "XS_Timseries/H_90m") fun hD =>
  req (lookupVar2 orig "XS_Timseries/H_1km") (.missingVar "XS_Timseries/H_1km") fun h1D =>
  req (lookupVar2 orig "XS_Timseries/Q") (.missingVar "XS_Timseries/Q") fun qD =>
  .ok {
    width := {
      dtype := "f8", dims := ["Time_Steps", "XS_90m"],
      fill_value := some (-999999999999),
      attrs := { units := some "m", long_name := some "node width",
                 valid_min := some 0, valid_max := some 100000 },
      data := wD },
    wse := {
      dtype := "f8", dims := ["Time_Steps", "XS_90m"],
      fill_value := some (-999999999999),
      attrs := { units := some "m",
                 long_name := some "water surface elevation with respect to the geoid",
                 valid_min := some (-1000), valid_max := some 100000 },
      data := hD },
    h_1km := {
      dtype := "f8", dims := ["Time_Steps", "Stageloc_1km"],
      fill_value := some 99999,
      attrs := { units := some "m", long_name := some "water surface elevation 1km",
                 valid_min := none, valid_max := none },
      data := h1D },
    q := {
      dtype := "f8", dims := ["Time_Steps", "Stageloc_1km"],
      fill_value := some 99999,
      attrs := { units := some "cubic meters per second", long_name := some "discharge",
                 valid_min := none, valid_max := none },
      data := qD },
    qhat := {
      dtype := "f8", dims := ["Time_Steps"], fill_value := some 99999,
      attrs := { units := some "??", long_name := some "Qhat",
                 valid_min := none, valid_max := none },
      data := maskedMeanAxis1 qD },
    d_x_area := {
      dtype := "f8", dims := ["Time_Steps", "XS_90m"],
      fill_value := some (-999999999999),
      attrs := { units := some "m^2",
                 long_name := some "change in cross-sectional area",
                 valid_min := some (-10000000), valid_max := some 10000000 },
      data := calculate_dxa h1D wD } }

/-- Embedding of create_reach_vars (lines 145-185); source path spellings
are kept exactly as in the code. -/
def create_reach_vars (orig : SrcDataset) : Except SchemaError ReachGroup :=
  req (lookupVar2 orig "Reach_Timseries/Q") (.missingVar "Reach_Timseries/Q") fun qD =>
  req (lookupVar2 orig "Reach_Timeseries/S_90m") (.missingVar "Reach_Timeseries/S_90m") fun sD =>
  req (lookupVar2 orig "Reach_Timeseries/S_1km") (.missingVar "Reach_Timeseries/S_1km") fun s1D =>
  req (lookupVar2 orig "Reach_Timeseries/GridID") (.missingVar "Reach_Timeseries/GridID") fun gD =>
  req (lookupVar2 orig "Reach_Timeseries/HydroID") (.missingVar "Reach_Timeseries/HydroID") fun hyD =>
  req (lookupVar2 orig "Reach_Timeseries/NextDownID") (.missingVar "Reach_Timeseries/NextDownID") fun ndD =>
  .ok {
    q := {
      dtype := "f8", dims := ["Time_Steps", "Reach"], fill_value := some 99999,
      attrs := { units := some "curbic meter per second",
                 long_name := some "mean discharge",
                 valid_min := none, valid_max := none },
      data := qD },
    slope2 := {
      dtype := "f8", dims := ["Time_Steps", "Reach"],
      fill_value := some (-999999999999),
      attrs := { units := some "m/m",
                 long_name := some "enhanced water surface slope with respect to geoid",
                 valid_min := none, valid_max := none },
      data := sD },
    s_1km := {
      dtype := "f8", dims := ["Time_Steps", "Reach"], fill_value := some 99999,
      attrs := { units := some "m/m", long_name := some "Slope_1km",
                 valid_min := none, valid_max := none },
      data := s1D },
    gridID := {
      dtype := "S1", dims := ["Reach", "nchar"], fill_value := none,
      attrs := { units := none, long_name := none,
                 valid_min := none, valid_max := none },
      data := gD },
    hydroID := {
      dtype := "f8", dims := ["Reach", "Reach"], fill_value := some 99999,
      attrs := { units := some "dimensionless", long_name := some "HydroID",
                 valid_min := none, valid_max := none },
      data := hyD },
    nextDownID := {
      dtype := "f8", dims := ["Reach", "Reach"], fill_value := some 99999,
      attrs := { units := some "dimensionless", long_name := some "NextDownID",
                 valid_min := none, valid_max := none },
      data := ndD } }

/-- Chain two fallible steps; models sequential Python statements in which
an exception in the first aborts the rest. -/
def reqE {α β : Type} (x : Except SchemaError α)
    (k : α → Except SchemaError β) : Except SchemaError β :=
  match x with
  | .error e => .error e
  | .ok a => k a

lemma reqE_ok {α β : Type} (x : Except SchemaError α)
    (k : α → Except SchemaError β) (b : β) :
    reqE x k = .ok b ↔ ∃ a, x = .ok a ∧ k a = .ok b := by
  cases x <;> simp [reqE]

/-- Embedding of relabel_variables (lines 24-49): open the source, create
the destination with its two groups, copy the title, then create the
dimensions, root variables, XS group variables, and reach group variables;
any SchemaError aborts the remaining steps. -/
def relabel_variables (orig : SrcDataset) : Except SchemaError NewDataset :=
  reqE (create_dimensions orig) fun dims =>
  reqE (create_root_vars orig) fun root =>
  reqE (create_xs_vars orig) fun xs =>
  reqE (create_reach_vars orig) fun reach =>
  .ok { title := orig.title, dims := dims, rootVars := root,
        xs_group := xs, reach_group := reach }

/-- Embedding of relabel (lines 15-18): process the files in order; the
loop has no exception handler, so the first SchemaError aborts the whole
run. Returns the outputs produced before the abort together with the
terminating error, if any. -/
def relabel (files : List SrcDataset) : List NewDataset × Option SchemaError :=
  match files with
  | [] => ([], none)
  | f :: rest =>
    match relabel_variables f with
    | .error e => ([], some e)
    | .ok ds =>
      let p := relabel rest
      (ds :: p.1, p.2)

/-- Container lifecycle operations. -/
inductive ContainerOp where
  | openSource
  | createDest
  | closeSource
  | closeDest
deriving DecidableEq

/-- Container operations of one relabel_variables call: line 28 opens the
source dataset for reading and line 30 creates the destination dataset.
No close call occurs anywhere in relabel.py, on the success path or on the
error path, so the call performs exactly these two operations. -/
def relabel_variables_ops : List ContainerOp :=
  [ContainerOp.openSource, ContainerOp.createDest]

/-- Container operations of a whole run over a list of files: each file
contributes its open and create; a SchemaError aborts the loop. -/
def relabel_trace (files : List SrcDataset) : List ContainerOp :=
  match files with
  | [] => []
  | f :: rest =>
    match relabel_variables f with
    | .error _ => relabel_variables_ops
    | .ok _ => relabel_variables_ops ++ relabel_trace rest

/-- The mutable instance state of the Relabel class: the xs_group and
reach_group attributes (lines 12-13). -/
structure RelabelState where
  xs_group : Option XSGroup
  reach_group : Option ReachGroup
deriving DecidableEq

/-- relabel_variables with the instance state threaded through: lines 33-34
overwrite self.xs_group and self.reach_group with fresh groups before any
read of either attribute, so the incoming state is never consulted; the
outgoing state holds the groups of this call on success (the partially
populated fresh groups of an aborted call are abstracted to none). -/
def relabel_variables_st (s : RelabelState) (orig : SrcDataset) :
    RelabelState × Except SchemaError NewDataset :=
  match relabel_variables orig with
  | .ok ds =>
    ({ xs_group := some ds.xs_group, reach_group := some ds.reach_group }, .ok ds)
  | .error e => ({ xs_group := none, reach_group := none }, .error e)

lemma create_dimensions_inv (orig : SrcDataset) (d : List (String × Nat))
    (h : create_dimensions orig = .ok d) :
    ∃ xs ts sl rc nc,
      lookupDim orig "XS_90m" = some xs ∧
      lookupDim orig "Time steps" = some ts ∧
      lookupDim orig "Stageloc_1km" = some sl ∧
      lookupDim orig "Reach" = some rc ∧
      lookupDim orig "nchar" = some nc ∧
      d = [("XS_90m", xs), ("Time_Steps", ts), ("Stageloc_1km", sl),
           ("Reach", rc), ("nchar", nc)] := by
  simp only [create_dimensions] at h
  rw [req_ok] at h; obtain ⟨xs, h1, h⟩ := h
  rw [req_ok] at h; obtain ⟨ts, h2, h⟩ := h
  rw [req_ok] at h; obtain ⟨sl, h3, h⟩ := h
  rw [req_ok] at h; obtain ⟨rc, h4, h⟩ := h
  rw [req_ok] at h; obtain ⟨nc, h5, h⟩ := h
  exact ⟨xs, ts, sl, rc, nc, h1, h2, h3, h4, h5, (Except.ok.inj h).symm⟩

lemma create_root_vars_inv (orig : SrcDataset) (root : RootVars)
    (h : create_root_vars orig = .ok root) :
    ∃ xsD tsD slD rcD,
      lookupVar1 orig "XS_90m" = some xsD ∧
      lookupVar1 orig "Time steps" = some tsD ∧
      lookupVar1 orig "Stageloc_1km" = some slD ∧
      lookupVar1 orig "Reach" = some rcD ∧
      root = {
        xs_90m := {
          dtype := "i4", dims := ["XS_90m"], fill_value := none,
          attrs := { units := some "orthogonals", long_name := some "XS_90m",
                     valid_min := none, valid_max := none },
          data := xsD },
        time_steps := {
          dtype := "i4", dims := ["Time_Steps"], fill_value := none,
          attrs := { units := some "day", long_name := some "Time Steps",
                     valid_min := none, valid_max := none },
          data := tsD },
        stageloc_1km := {
          dtype := "i4", dims := ["Stageloc_1km"], fill_value := none,
          attrs := { units := some "orthogonals", long_name := some "Stageloc_1km",
                     valid_min := none, valid_max := none },
          data := slD },
        reach := {
          dtype := "i4", dims := ["Reach"], fill_value := none,
          attrs := { units := some "RiverReaches", long_name := some "Reach",
                     valid_min := none, valid_max := none },
          data := rcD } } := by
  simp only [create_root_vars] at h
  rw [req_ok] at h; obtain ⟨xsD, h1, h⟩ := h
  rw [req_ok] at h; obtain ⟨tsD, h2, h⟩ := h
  rw [req_ok] at h; obtain ⟨slD, h3, h⟩ := h
  rw [req_ok] at h; obtain ⟨rcD, h4, h⟩ := h
  exact ⟨xsD, tsD, slD, rcD, h1, h2, h3, h4, (Except.ok.inj h).symm⟩

lemma create_xs_vars_inv (orig : SrcDataset) (g : XSGroup)
    (h : create_xs_vars orig = .ok g) :
    ∃ wD hD h1D qD,
      lookupVar2 orig "XS_Timseries/W" = some wD ∧
      lookupVar2 orig "XS_Timseries/H_90m" = some hD ∧
      lookupVar2 orig "XS_Timseries/H_1km" = some h1D ∧
      lookupVar2 orig "XS_Timseries/Q" = some qD ∧
      g = {
        width := {
          dtype := "f8", dims := ["Time_Steps", "XS_90m"],
          fill_value := some (-999999999999),
          attrs := { units := some "m", long_name := some "node width",
                     valid_min := some 0, valid_max := some 100000 },
          data := wD },
        wse := {
          dtype := "f8", dims := ["Time_Steps", "XS_90m"],
          fill_value := some (-999999999999),
          attrs := { units := some "m",
                     long_name := some "water surface elevation with respect to the geoid",
                     valid_min := some (-1000), valid_max := some 100000 },
          data := hD },
        h_1km := {
          dtype := "f8", dims := ["Time_Steps", "Stageloc_1km"],
          fill_value := some 99999,
          attrs := { units := some "m",
                     long_name := some "water surface elevation 1km",
                     valid_min := none, valid_max := none },
          data := h1D },
        q := {
          dtype := "f8", dims := ["Time_Steps", "Stageloc_1km"],
          fill_value := some 99999,
          attrs := { units := some "cubic meters per second",
                     long_name := some "discharge",
                     valid_min := none, valid_max := none },
          data := qD },
        qhat := {
          dtype := "f8", dims := ["Time_Steps"], fill_value := some 99999,
          attrs := { units := some "??", long_name := some "Qhat",
                     valid_min := none, valid_max := none },
          data := maskedMeanAxis1 qD },
        d_x_area := {
          dtype := "f8", dims := ["Time_Steps", "XS_90m"],
          fill_value := some (-999999999999),
          attrs := { units := some "m^2",
                     long_name := some "change in cross-sectional area",
                     valid_min := some (-10000000), valid_max := some 10000000 },
          data := calculate_dxa h1D wD } } := by
  simp only [create_xs_vars] at h
  rw [req_ok] at h; obtain ⟨wD, h1, h⟩ := h
  rw [req_ok] at h; obtain ⟨hD, h2, h⟩ := h
  rw [req_ok] at h; obtain ⟨h1D, h3, h⟩ := h
  rw [req_ok] at h; obtain ⟨qD, h4, h⟩ := h
  exact ⟨wD, hD, h1D, qD, h1, h2, h3, h4, (Except.ok.inj h).symm⟩

lemma create_reach_vars_inv (orig : SrcDataset) (g : ReachGroup)
    (h : create_reach_vars orig = .ok g) :
    ∃ qD sD s1D gD hyD ndD,
      lookupVar2 orig "Reach_Timseries/Q" = some qD ∧
      lookupVar2 orig "Reach_Timeseries/S_90m" = some sD ∧
      lookupVar2 orig "Reach_Timeseries/S_1km" = some s1D ∧
      lookupVar2 orig "Reach_Timeseries/GridID" = some gD ∧
      lookupVar2 orig "Reach_Timeseries/HydroID" = some hyD ∧
      lookupVar2 orig "Reach_Timeseries/NextDownID" = some ndD ∧
      g = {
        q := {
          dtype := "f8", dims := ["Time_Steps", "Reach"], fill_value := some 99999,
          attrs := { units := some "curbic meter per second",
                     long_name := some "mean discharge",
                     valid_min := none, valid_max := none },
          data := qD },
        slope2 := {
          dtype := "f8", dims := ["Time_Steps", "Reach"],
          fill_value := some (-999999999999),
          attrs := { units := some "m/m",
                     long_name := some "enhanced water surface slope with respect to geoid",
                     valid_min := none, valid_max := none },
          data := sD },
        s_1km := {
          dtype := "f8", dims := ["Time_Steps", "Reach"], fill_value := some 99999,
          attrs := { units := some "m/m", long_name := some "Slope_1km",
                     valid_min := none, valid_max := none },
          data := s1D },
        gridID := {
          dtype := "S1", dims := ["Reach", "nchar"], fill_value := none,
          attrs := { units := none, long_name := none,
                     valid_min := none, valid_max := none },
          data := gD },
        hydroID := {
          dtype := "f8", dims := ["Reach", "Reach"], fill_value := some 99999,
          attrs := { units := some "dimensionless", long_name := some "HydroID",
                     valid_min := none, valid_max := none },
          data := hyD },
        nextDownID := {
          dtype := "f8", dims := ["Reach", "Reach"], fill_value := some 99999,
          attrs := { units := some "dimensionless", long_name := some "NextDownID",
                     valid_min := none, valid_max := none },
          data := ndD } } := by
  simp only [create_reach_vars] at h
  rw [req_ok] at h; obtain ⟨qD, h1, h⟩ := h
  rw [req_ok] at h; obtain ⟨sD, h2, h⟩ := h
  rw [req_ok] at h; obtain ⟨s1D, h3, h⟩ := h
  rw [req_ok] at h; obtain ⟨gD, h4, h⟩ := h
  rw [req_ok] at h; obtain ⟨hyD, h5, h⟩ := h
  rw [req_ok] at h; obtain ⟨ndD, h6, h⟩ := h
  exact ⟨qD, sD, s1D, gD, hyD, ndD, h1, h2, h3, h4, h5, h6, (Except.ok.inj h).symm⟩

lemma relabel_variables_inv (orig : SrcDataset) (ds : NewDataset)
    (h : relabel_variables orig = .ok ds) :
    create_dimensions orig = .ok ds.dims
    ∧ create_root_vars orig = .ok ds.rootVars
    ∧ create_xs_vars orig = .ok ds.xs_group
    ∧ create_reach_vars orig = .ok ds.reach_group
    ∧ ds.title = orig.title := by
  simp only [relabel_variables] at h
  rw [reqE_ok] at h; obtain ⟨dims, hd, h⟩ := h
  rw [reqE_ok] at h; obtain ⟨root, hr, h⟩ := h
  rw [reqE_ok] at h; obtain ⟨xs, hx, h⟩ := h
  rw [reqE_ok] at h; obtain ⟨reach, hre, h⟩ := h
  have heq := Except.ok.inj h
  subst heq
  exact ⟨hd, hr, hx, hre, rfl⟩

/-- A small fully valid source dataset with all sizes 1. -/
def srcGood : SrcDataset := {
  title := "t",
  dims := [("XS_90m", 1), ("Time steps", 1), ("Stageloc_1km", 1),
           ("Reach", 1), ("nchar", 1)],
  vars1 := [("XS_90m", [some 1]), ("Time steps", [some 1]),
            ("Stageloc_1km", [some 1]), ("Reach", [some 1])],
  vars2 := [("XS_Timseries/W", [[some 2]]), ("XS_Timseries/H_90m", [[some 3]]),
            ("XS_Timseries/H_1km", [[some 4]]), ("XS_Timseries/Q", [[some 5]]),
            ("Reach_Timseries/Q", [[some 6]]), ("Reach_Timeseries/S_90m", [[some 7]]),
            ("Reach_Timeseries/S_1km", [[some 8]]), ("Reach_Timeseries/GridID", [[some 9]]),
            ("Reach_Timeseries/HydroID", [[some 10]]),
            ("Reach_Timeseries/NextDownID", [[some 11]])] }

/-- The dimensions produced from srcGood. -/
def dimsGood : List (String × Nat) :=
  [("XS_90m", 1), ("Time_Steps", 1), ("Stageloc_1km", 1), ("Reach", 1), ("nchar", 1)]

/-- The root variables produced from srcGood. -/
def rootGood : RootVars := {
  xs_90m := {
    dtype := "i4", dims := ["XS_90m"], fill_value := none,
    attrs := { units := some "orthogonals", long_name := some "XS_90m",
               valid_min := none, valid_max := none },
    data := [some 1] },
  time_steps := {
    dtype := "i4", dims := ["Time_Steps"], fill_value := none,
    attrs := { units := some "day", long_name := some "Time Steps",
               valid_min := none, valid_max := none },
    data := [some 1] },
  stageloc_1km := {
    dtype := "i4", dims := ["Stageloc_1km"], fill_value := none,
    attrs := { units := some "orthogonals", long_name := some "Stageloc_1km",
               valid_min := none, valid_max := none },
    data := [some 1] },
  reach := {
    dtype := "i4", dims := ["Reach"], fill_value := none,
    attrs := { units := some "RiverReaches", long_name := some "Reach",
               valid_min := none, valid_max := none },
    data := [some 1] } }

/-- The XS group produced from srcGood: the single Q value 5 has mean 5 and
the derived field is zero because both 1-element medians cancel. -/
def xsGood : XSGroup := {
  width := {
    dtype := "f8", dims := ["Time_Steps", "XS_90m"],
    fill_value := some (-999999999999),
    attrs := { units := some "m", long_name := some "node width",
               valid_min := some 0, valid_max := some 100000 },
    data := [[some 2]] },
  wse := {
    dtype := "f8", dims := ["Time_Steps", "XS_90m"],
    fill_value := some (-999999999999),
    attrs := { units := some "m",
               long_name := some "water surface elevation with respect to the geoid",
               valid_min := some (-1000), valid_max := some 100000 },
    data := [[some 3]] },
  h_1km := {
    dtype := "f8", dims := ["Time_Steps", "Stageloc_1km"],
    fill_value := some 99999,
    attrs := { units := some "m",
               long_name := some "water surface elevation 1km",
               valid_min := none, valid_max := none },
    data := [[some 4]] },
  q := {
    dtype := "f8", dims := ["Time_Steps", "Stageloc_1km"],
    fill_value := some 99999,
    attrs := { units := some "cubic meters per second",
               long_name := some "discharge",
               valid_min := none, valid_max := none },
    data := [[some 5]] },
  qhat := {
    dtype := "f8", dims := ["Time_Steps"], fill_value := some 99999,
    attrs := { units := some "??", long_name := some "Qhat",
               valid_min := none, valid_max := none },
    data := [some 5] },
  d_x_area := {
    dtype := "f8", dims := ["Time_Steps", "XS_90m"],
    fill_value := some (-999999999999),
    attrs := { units := some "m^2",
               long_name := some "change in cross-sectional area",
               valid_min := some (-10000000), valid_max := some 10000000 },
    data := [[some 0]] } }

/-- The reach group produced from srcGood. -/
def reachGood : ReachGroup := {
  q := {
    dtype := "f8", dims := ["Time_Steps", "Reach"], fill_value := some 99999,
    attrs := { units := some "curbic meter per second",
               long_name := some "mean discharge",
               valid_min := none, valid_max := none },
    data := [[some 6]] },
  slope2 := {
    dtype := "f8", dims := ["Time_Steps", "Reach"],
    fill_value := some (-999999999999),
    attrs := { units := some "m/m",
               long_name := some "enhanced water surface slope with respect to geoid",
               valid_min := none, valid_max := none },
    data := [[some 7]] },
  s_1km := {
    dtype := "f8", dims := ["Time_Steps", "Reach"], fill_value := some 99999,
    attrs := { units := some "m/m", long_name := some "Slope_1km",
               valid_min := none, valid_max := none },
    data := [[some 8]] },
  gridID := {
    dtype := "S1", dims := ["Reach", "nchar"], fill_value := none,
    attrs := { units := none, long_name := none,
               valid_min := none, valid_max := none },
    data := [[some 9]] },
  hydroID := {
    dtype := "f8", dims := ["Reach", "Reach"], fill_value := some 99999,
    attrs := { units := some "dimensionless", long_name := some "HydroID",
               valid_min := none, valid_max := none },
    data := [[some 10]] },
  nextDownID := {
    dtype := "f8", dims := ["Reach", "Reach"], fill_value := some 99999,
    attrs := { units := some "dimensionless", long_name := some "NextDownID",
               valid_min := none, valid_max := none },
    data := [[some 11]] } }

/-- The destination dataset produced from srcGood. -/
def dsGood : NewDataset := {
  title := "t", dims := dimsGood, rootVars := rootGood,
  xs_group := xsGood, reach_group := reachGood }

lemma create_dimensions_srcGood : create_dimensions srcGood = .ok dimsGood := by
  simp [create_dimensions, req, lookupDim, srcGood, List.lookup, dimsGood]

lemma create_root_vars_srcGood : create_root_vars srcGood = .ok rootGood := by
  simp [create_root_vars, req, lookupVar1, srcGood, List.lookup, rootGood]

lemma create_xs_vars_srcGood : create_xs_vars srcGood = .ok xsGood := by
  simp [create_xs_vars, req, lookupVar2, srcGood, List.lookup, xsGood,
    maskedMeanAxis1, maskedMeanRow, unmaskedRow, calculate_dxa, mmedian,
    unmaskedElems, medianList, sortQ, insertSorted, mulArr, mulRow, mulOpt,
    subOptScalar, scalarSubOpt, halfOpt]

lemma create_reach_vars_srcGood : create_reach_vars srcGood = .ok reachGood := by
  simp [create_reach_vars, req, lookupVar2, srcGood, List.lookup, reachGood]

lemma relabel_variables_srcGood : relabel_variables srcGood = .ok dsGood := by
  simp only [relabel_variables, create_dimensions_srcGood, create_root_vars_srcGood,
    create_xs_vars_srcGood, create_reach_vars_srcGood, reqE]
  rfl

/-- Width data of the (3, 2) end-to-end scenario. -/
def wC2 : MArr := [[some 2, some 4], [some 6, some 8], [some 10, some 12]]

/-- H_90m data of the (3, 2) end-to-end scenario, distinct from H_1km. -/
def h90C2 : MArr := [[some 1, some 3], [some 5, some 7], [some 9, some 11]]

/-- H_1km data of the (3, 2) end-to-end scenario: all zero. -/
def h1C2 : MArr := [[some 0, some 0], [some 0, some 0], [some 0, some 0]]

/-- Q data of the (3, 2) end-to-end scenario: all one. -/
def qC2 : MArr := [[some 1, some 1], [some 1, some 1], [some 1, some 1]]

/-- A source dataset realising the end-to-end scenario of the
specification: Time steps = 3, XS_90m = 2, W and H_90m of shape (3, 2)
with no masked values, plus the H_1km and Q fields the code also reads. -/
def srcC2 : SrcDataset := {
  title := "t2",
  dims := [("XS_90m", 2), ("Time steps", 3), ("Stageloc_1km", 2),
           ("Reach", 1), ("nchar", 1)],
  vars1 := [],
  vars2 := [("XS_Timseries/W", wC2), ("XS_Timseries/H_90m", h90C2),
            ("XS_Timseries/H_1km", h1C2), ("XS_Timseries/Q", qC2)] }

/-- The XS group the code produces from srcC2: d_x_area is identically zero
because H_1km is identically zero, and Qhat is identically one. -/
def gC2 : XSGroup := {
  width := {
    dtype := "f8", dims := ["Time_Steps", "XS_90m"],
    fill_value := some (-999999999999),
    attrs := { units := some "m", long_name := some "node width",
               valid_min := some 0, valid_max := some 100000 },
    data := wC2 },
  wse := {
    dtype := "f8", dims := ["Time_Steps", "XS_90m"],
    fill_value := some (-999999999999),
    attrs := { units := some "m",
               long_name := some "water surface elevation with respect to the geoid",
               valid_min := some (-1000), valid_max := some 100000 },
    data := h90C2 },
  h_1km := {
    dtype := "f8", dims := ["Time_Steps", "Stageloc_1km"],
    fill_value := some 99999,
    attrs := { units := some "m",
               long_name := some "water surface elevation 1km",
               valid_min := none, valid_max := none },
    data := h1C2 },
  q := {
    dtype := "f8", dims := ["Time_Steps", "Stageloc_1km"],
    fill_value := some 99999,
    attrs := { units := some "cubic meters per second",
               long_name := some "discharge",
               valid_min := none, valid_max := none },
    data := qC2 },
  qhat := {
    dtype := "f8", dims := ["Time_Steps"], fill_value := some 99999,
    attrs := { units := some "??", long_name := some "Qhat",
               valid_min := none, valid_max := none },
    data := [some 1, some 1, some 1] },
  d_x_area := {
    dtype := "f8", dims := ["Time_Steps", "XS_90m"],
    fill_value := some (-999999999999),
    attrs := { units := some "m^2",
               long_name := some "change in cross-sectional area",
               valid_min := some (-10000000), valid_max := some 10000000 },
    data := [[some 0, some 0], [some 0, some 0], [some 0, some 0]] } }

lemma create_xs_vars_srcC2 : create_xs_vars srcC2 = .ok gC2 := by
  simp [create_xs_vars, req, lookupVar2, srcC2, List.lookup, gC2]
  norm_num [maskedMeanAxis1, maskedMeanRow, unmaskedRow, calculate_dxa, mmedian,
    unmaskedElems, medianList, sortQ, insertSorted, mulArr, mulRow, mulOpt,
    subOptScalar, scalarSubOpt, halfOpt, wC2, h90C2, h1C2, qC2, List.filterMap]

lemma calculate_h90_ne : calculate_dxa h90C2 wC2
    ≠ [[some 0, some 0], [some 0, some 0], [some 0, some 0]] := by
  norm_num [calculate_dxa, mmedian, unmaskedElems, unmaskedRow, medianList,
    sortQ, insertSorted, mulArr, mulRow, mulOpt, subOptScalar, scalarSubOpt,
    halfOpt, wC2, h90C2]

/-- srcGood with the Reach dimension removed from the source. -/
def srcNoReach : SrcDataset := {
  title := "t",
  dims := [("XS_90m", 1), ("Time steps", 1), ("Stageloc_1km", 1), ("nchar", 1)],
  vars1 := [],
  vars2 := [] }

lemma srcNoReach_noReach : lookupDim srcNoReach "Reach" = none := by
  simp [lookupDim, srcNoReach, List.lookup]

lemma relabel_variables_srcNoReach :
    relabel_variables srcNoReach = .error (SchemaError.missingDim "Reach") := by
  have h1 : create_dimensions srcNoReach = .error (SchemaError.missingDim "Reach") := by
    simp [create_dimensions, req, lookupDim, srcNoReach, List.lookup]
  simp only [relabel_variables, h1, reqE]

/-- C2 (amended): the destination field d_x_area written to the cross
section group equals calculate_dxa applied to the source H_1km array (as h)
and the source W array (as w) - not the H_90m array - and is declared on
the (Time_Steps, XS_90m) dimensions. -/
theorem claim_C2 (orig : SrcDataset) (g : XSGroup)
    (hok : create_xs_vars orig = .ok g) :
    ∃ h1D wD,
      lookupVar2 orig "XS_Timseries/H_1km" = some h1D ∧
      lookupVar2 orig "XS_Timseries/W" = some wD ∧
      g.d_x_area.data = calculate_dxa h1D wD ∧
      g.d_x_area.dims = ["Time_Steps", "XS_90m"] := by
  obtain ⟨wD, hD, h1D, qD, h1, h2, h3, h4, hg⟩ := create_xs_vars_inv orig g hok
  subst hg
  exact ⟨h1D, wD, h3, h1, rfl, rfl⟩

/-- C2 counterexample: in the (3, 2) no-mask scenario with H_90m distinct
from H_1km, the d_x_area the code produces (identically zero, because
H_1km is identically zero) differs from calculate_dxa applied to H_90m and
W, refuting the claim that d_x_area equals calculate(H_90m, W). -/
theorem claim_C2_counterexample :
    create_xs_vars srcC2 = Except.ok gC2
    ∧ lookupVar2 srcC2 "XS_Timseries/H_90m" = some h90C2
    ∧ lookupVar2 srcC2 "XS_Timseries/W" = some wC2
    ∧ gC2.d_x_area.data ≠ calculate_dxa h90C2 wC2 := by
  refine ⟨create_xs_vars_srcC2, by simp [lookupVar2, srcC2, List.lookup],
    by simp [lookupVar2, srcC2, List.lookup], ?_⟩
  intro hEq
  exact calculate_h90_ne (hEq.symm.trans (by rfl))

/-- C2 witness: the amended theorem applied to the concrete (3, 2)
scenario source. -/
theorem claim_C2_witness :
    create_xs_vars srcC2 = Except.ok gC2
    ∧ ∃ h1D wD,
        lookupVar2 srcC2 "XS_Timseries/H_1km" = some h1D ∧
        lookupVar2 srcC2 "XS_Timseries/W" = some wD ∧
        gC2.d_x_area.data = calculate_dxa h1D wD ∧
        gC2.d_x_area.dims = ["Time_Steps", "XS_90m"] :=
  ⟨create_xs_vars_srcC2, claim_C2 srcC2 gC2 create_xs_vars_srcC2⟩

/-- All fourteen copy fields of the mapping: each target field holds
exactly the source array read at its configured source path, together with
exactly the configured type, dimensions, fill value and attributes. -/
def copyFieldsProp (orig : SrcDataset) (ds : NewDataset) : Prop :=
  (∃ a, lookupVar1 orig "XS_90m" = some a ∧ ds.rootVars.xs_90m = {
      dtype := "i4", dims := ["XS_90m"], fill_value := none,
      attrs := { units := some "orthogonals", long_name := some "XS_90m",
                 valid_min := none, valid_max := none },
      data := a })
  ∧ (∃ a, lookupVar1 orig "Time steps" = some a ∧ ds.rootVars.time_steps = {
      dtype := "i4", dims := ["Time_Steps"], fill_value := none,
      attrs := { units := some "day", long_name := some "Time Steps",
                 valid_min := none, valid_max := none },
      data := a })
  ∧ (∃ a, lookupVar1 orig "Stageloc_1km" = some a ∧ ds.rootVars.stageloc_1km = {
      dtype := "i4", dims := ["Stageloc_1km"], fill_value := none,
      attrs := { units := some "orthogonals", long_name := some "Stageloc_1km",
                 valid_min := none, valid_max := none },
      data := a })
  ∧ (∃ a, lookupVar1 orig "Reach" = some a ∧ ds.rootVars.reach = {
      dtype := "i4", dims := ["Reach"], fill_value := none,
      attrs := { units := some "RiverReaches", long_name := some "Reach",
                 valid_min := none, valid_max := none },
      data := a })
  ∧ (∃ a, lookupVar2 orig "XS_Timseries/W" = some a ∧ ds.xs_group.width = {
      dtype := "f8", dims := ["Time_Steps", "XS_90m"],
      fill_value := some (-999999999999),
      attrs := { units := some "m", long_name := some "node width",
                 valid_min := some 0, valid_max := some 100000 },
      data := a })
  ∧ (∃ a, lookupVar2 orig "XS_Timseries/H_90m" = some a ∧ ds.xs_group.wse = {
      dtype := "f8", dims := ["Time_Steps", "XS_90m"],
      fill_value := some (-999999999999),
      attrs := { units := some "m",
                 long_name := some "water surface elevation with respect to the geoid",
                 valid_min := some (-1000), valid_max := some 100000 },
      data := a })
  ∧ (∃ a, lookupVar2 orig "XS_Timseries/H_1km" = some a ∧ ds.xs_group.h_1km = {
      dtype := "f8", dims := ["Time_Steps", "Stageloc_1km"],
      fill_value := some 99999,
      attrs := { units := some "m",
                 long_name := some "water surface elevation 1km",
                 valid_min := none, valid_max := none },
      data := a })
  ∧ (∃ a, lookupVar2 orig "XS_Timseries/Q" = some a ∧ ds.xs_group.q = {
      dtype := "f8", dims := ["Time_Steps", "Stageloc_1km"],
      fill_value := some 99999,
      attrs := { units := some "cubic meters per second",
                 long_name := some "discharge",
                 valid_min := none, valid_max := none },
      data := a })
  ∧ (∃ a, lookupVar2 orig "Reach_Timseries/Q" = some a ∧ ds.reach_group.q = {
      dtype := "f8", dims := ["Time_Steps", "Reach"], fill_value := some 99999,
      attrs := { units := some "curbic meter per second",
                 long_name := some "mean discharge",
                 valid_min := none, valid_max := none },
      data := a })
  ∧ (∃ a, lookupVar2 orig "Reach_Timeseries/S_90m" = some a ∧ ds.reach_group.slope2 = {
      dtype := "f8", dims := ["Time_Steps", "Reach"],
      fill_value := some (-999999999999),
      attrs := { units := some "m/m",
                 long_name := some "enhanced water surface slope with respect to geoid",
                 valid_min := none, valid_max := none },
      data := a })
  ∧ (∃ a, lookupVar2 orig "Reach_Timeseries/S_1km" = some a ∧ ds.reach_group.s_1km = {
      dtype := "f8", dims := ["Time_Steps", "Reach"], fill_value := some 99999,
      attrs := { units := some "m/m", long_name := some "Slope_1km",
                 valid_min := none, valid_max := none },
      data := a })
  ∧ (∃ a, lookupVar2 orig "Reach_Timeseries/GridID" = some a ∧ ds.reach_group.gridID = {
      dtype := "S1", dims := ["Reach", "nchar"], fill_value := none,
      attrs := { units := none, long_name := none,
                 valid_min := none, valid_max := none },
      data := a })
  ∧ (∃ a, lookupVar2 orig "Reach_Timeseries/HydroID" = some a ∧ ds.reach_group.hydroID = {
      dtype := "f8", dims := ["Reach", "Reach"], fill_value := some 99999,
      attrs := { units := some "dimensionless", long_name := some "HydroID",
                 valid_min := none, valid_max := none },
      data := a })
  ∧ (∃ a, lookupVar2 orig "Reach_Timeseries/NextDownID" = some a ∧ ds.reach_group.nextDownID = {
      dtype := "f8", dims := ["Reach", "Reach"], fill_value := some 99999,
      attrs := { units := some "dimensionless", long_name := some "NextDownID",
                 valid_min := none, valid_max := none },
      data := a })

/-- C4: for every configured copy field of a successful run, the target
field holds exactly the source array and exactly the configured type,
dimensions, fill value and attributes (units, long_name, valid_min,
valid_max). -/
theorem claim_C4 (orig : SrcDataset) (ds : NewDataset)
    (hok : relabel_variables orig = .ok ds) : copyFieldsProp orig ds := by
  obtain ⟨hd, hr, hx, hre, ht⟩ := relabel_variables_inv orig ds hok
  obtain ⟨xsD, tsD, slD, rcD, r1, r2, r3, r4, hroot⟩ :=
    create_root_vars_inv orig ds.rootVars hr
  obtain ⟨wD, hD, h1D, qD, x1, x2, x3, x4, hxs⟩ :=
    create_xs_vars_inv orig ds.xs_group hx
  obtain ⟨qD2, sD, s1D, gD, hyD, ndD, e1, e2, e3, e4, e5, e6, hreach⟩ :=
    create_reach_vars_inv orig ds.reach_group hre
  refine ⟨⟨xsD, r1, ?_⟩, ⟨tsD, r2, ?_⟩, ⟨slD, r3, ?_⟩, ⟨rcD, r4, ?_⟩,
    ⟨wD, x1, ?_⟩, ⟨hD, x2, ?_⟩, ⟨h1D, x3, ?_⟩, ⟨qD, x4, ?_⟩,
    ⟨qD2, e1, ?_⟩, ⟨sD, e2, ?_⟩, ⟨s1D, e3, ?_⟩, ⟨gD, e4, ?_⟩,
    ⟨hyD, e5, ?_⟩, ⟨ndD, e6, ?_⟩⟩ <;>
  first
    | rw [hroot]
    | rw [hxs]
    | rw [hreach]

/-- C4 witness: the theorem applied to the concrete all-sizes-one source. -/
theorem claim_C4_witness :
    relabel_variables srcGood = Except.ok dsGood ∧ copyFieldsProp srcGood dsGood :=
  ⟨relabel_variables_srcGood, claim_C4 srcGood dsGood relabel_variables_srcGood⟩

/-- C5: when the configured source dimension Reach is absent, dimension
creation fails with a SchemaError of the missing-dimension kind,
relabel_variables propagates it, and no output dataset is produced. -/
theorem claim_C5 (orig : SrcDataset) (hmiss : lookupDim orig "Reach" = none) :
    (∃ n, create_dimensions orig = .error (SchemaError.missingDim n)
       ∧ relabel_variables orig = .error (SchemaError.missingDim n))
    ∧ ∀ ds, relabel_variables orig ≠ Except.ok ds := by
  have key : ∃ n, create_dimensions orig = .error (SchemaError.missingDim n) := by
    cases h1 : lookupDim orig "XS_90m" with
    | none => exact ⟨"XS_90m", by simp [create_dimensions, req, h1]⟩
    | some xs =>
      cases h2 : lookupDim orig "Time steps" with
      | none => exact ⟨"Time steps", by simp [create_dimensions, req, h1, h2]⟩
      | some ts =>
        cases h3 : lookupDim orig "Stageloc_1km" with
        | none =>
          exact ⟨"Stageloc_1km", by simp [create_dimensions, req, h1, h2, h3]⟩
        | some sl =>
          exact ⟨"Reach", by simp [create_dimensions, req, h1, h2, h3, hmiss]⟩
  obtain ⟨n, hn⟩ := key
  have hrv : relabel_variables orig = .error (SchemaError.missingDim n) := by
    simp only [relabel_variables, hn, reqE]
  exact ⟨⟨n, hn, hrv⟩, fun ds hds => by
    rw [hrv] at hds; exact Except.noConfusion hds⟩

/-- C5 witness: the theorem applied to a source lacking Reach. -/
theorem claim_C5_witness :
    lookupDim srcNoReach "Reach" = none
    ∧ ((∃ n, create_dimensions srcNoReach = .error (SchemaError.missingDim n)
         ∧ relabel_variables srcNoReach = .error (SchemaError.missingDim n))
       ∧ ∀ ds, relabel_variables srcNoReach ≠ Except.ok ds) :=
  ⟨srcNoReach_noReach, claim_C5 srcNoReach srcNoReach_noReach⟩

/-- C6 counterexample: the loop in relabel has no exception handler, so
with a first file whose source lacks the Reach dimension and a second,
fully valid file, the run terminates at the first file: it returns no
outputs at all, even though the second file on its own is processable. -/
theorem claim_C6_counterexample :
    relabel [srcNoReach, srcGood] = ([], some (SchemaError.missingDim "Reach"))
    ∧ relabel_variables srcGood = Except.ok dsGood
    ∧ (relabel [srcNoReach, srcGood]).1 = [] := by
  have h1 : relabel [srcNoReach, srcGood]
      = ([], some (SchemaError.missingDim "Reach")) := by
    simp [relabel, relabel_variables_srcNoReach]
  exact ⟨h1, relabel_variables_srcGood, by rw [h1]⟩

/-- C6 (amended): when processing of one input file aborts with a
SchemaError, the whole run terminates: no subsequent file is processed and
the run returns no outputs. -/
theorem claim_C6 (f : SrcDataset) (rest : List SrcDataset) (e : SchemaError)
    (hf : relabel_variables f = .error e) :
    relabel (f :: rest) = ([], some e) := by
  simp [relabel, hf]

/-- C6 witness: the amended theorem applied to the concrete aborting run. -/
theorem claim_C6_witness :
    relabel_variables srcNoReach = Except.error (SchemaError.missingDim "Reach")
    ∧ relabel (srcNoReach :: [srcGood]) = ([], some (SchemaError.missingDim "Reach")) :=
  ⟨relabel_variables_srcNoReach,
    claim_C6 srcNoReach [srcGood] (SchemaError.missingDim "Reach")
      relabel_variables_srcNoReach⟩

/-- C7 counterexample: a concrete two-file run whose container trace is
open, create, open, create: the second file is opened while the first
file containers have never been closed, and no close operation occurs at
all, refuting the claim that both containers are released before the next
file begins. -/
theorem claim_C7_counterexample :
    relabel_trace [srcGood, srcGood]
      = [ContainerOp.openSource, ContainerOp.createDest,
         ContainerOp.openSource, ContainerOp.createDest]
    ∧ ContainerOp.closeSource ∉ relabel_trace [srcGood, srcGood]
    ∧ ContainerOp.closeDest ∉ relabel_trace [srcGood, srcGood] := by
  have h1 : relabel_trace [srcGood, srcGood]
      = [ContainerOp.openSource, ContainerOp.createDest,
         ContainerOp.openSource, ContainerOp.createDest] := by
    simp [relabel_trace, relabel_variables_srcGood, relabel_variables_ops]
  refine ⟨h1, ?_, ?_⟩ <;> rw [h1] <;> decide

/-- C7 (amended): the code never closes a container: every container
operation of a run, on the success path and on the error path, is an open
of a source or a creation of a destination, so the containers of file k
are still unreleased when file k+1 begins. -/
theorem claim_C7 (files : List SrcDataset) (op : ContainerOp)
    (hop : op ∈ relabel_trace files) :
    op = ContainerOp.openSource ∨ op = ContainerOp.createDest := by
  induction files with
  | nil => simp [relabel_trace] at hop
  | cons f rest ih =>
    simp only [relabel_trace] at hop
    cases hf : relabel_variables f with
    | error e =>
      rw [hf] at hop
      simp [relabel_variables_ops] at hop
      rcases hop with h | h
      · exact Or.inl h
      · exact Or.inr h
    | ok ds =>
      rw [hf] at hop
      simp [relabel_variables_ops] at hop
      rcases hop with h | h | h
      · exact Or.inl h
      · exact Or.inr h
      · exact ih h

/-- C7 witness: the amended theorem applied to a one-file run. -/
theorem claim_C7_witness :
    ContainerOp.openSource ∈ relabel_trace [srcGood]
    ∧ (ContainerOp.openSource = ContainerOp.openSource
       ∨ ContainerOp.openSource = ContainerOp.createDest) :=
  ⟨by simp [relabel_trace, relabel_variables_srcGood, relabel_variables_ops],
   claim_C7 [srcGood] ContainerOp.openSource
     (by simp [relabel_trace, relabel_variables_srcGood, relabel_variables_ops])⟩

/-- C9: the per-file mapping is a deterministic function of the source
dataset: the result does not depend on the incoming instance state, a
second run started from the state left by the first produces the identical
destination dataset, and the result always equals the pure mapping. -/
theorem claim_C9 (s1 s2 : RelabelState) (orig : SrcDataset) :
    (relabel_variables_st s1 orig).2 = (relabel_variables_st s2 orig).2
    ∧ (relabel_variables_st (relabel_variables_st s1 orig).1 orig).2
        = (relabel_variables_st s1 orig).2
    ∧ (relabel_variables_st s1 orig).2 = relabel_variables orig := by
  unfold relabel_variables_st
  cases relabel_variables orig <;> simp

/-- C10: the Qhat variable equals the masked mean of the just-written Q
variable along its second axis: one entry per Q row, each the mean of the
unmasked entries of that row, masked exactly when the whole row is masked. -/
theorem claim_C10 (orig : SrcDataset) (g : XSGroup)
    (hok : create_xs_vars orig = .ok g) :
    g.qhat.data.length = g.q.data.length
    ∧ ∀ (t : Nat) (row : MRow), g.q.data[t]? = some row →
        g.qhat.data[t]? = some (maskedMeanRow row)
        ∧ (maskedMeanRow row = none ↔ ∀ e ∈ row, e = none)
        ∧ ∀ m, maskedMeanRow row = some m →
            m = (unmaskedRow row).sum / (unmaskedRow row).length := by
  obtain ⟨wD, hD, h1D, qD, h1, h2, h3, h4, hg⟩ := create_xs_vars_inv orig g hok
  subst hg
  refine ⟨by simp [maskedMeanAxis1], ?_⟩
  intro t row hrow
  have hrow2 : qD[t]? = some row := hrow
  refine ⟨by simp [maskedMeanAxis1, List.getElem?_map, hrow2], ?_, ?_⟩
  · constructor
    · intro hnone
      by_cases hz : (unmaskedRow row).length = 0
      · exact (unmaskedRow_eq_nil row).mp (List.length_eq_zero.mp hz)
      · simp [maskedMeanRow, hz] at hnone
    · intro hall
      have hempty : unmaskedRow row = [] := (unmaskedRow_eq_nil row).mpr hall
      simp [maskedMeanRow, hempty]
  · intro m hm
    by_cases hz : (unmaskedRow row).length = 0
    · simp [maskedMeanRow, hz] at hm
    · simp [maskedMeanRow, hz] at hm
      exact hm.symm

/-- C10 witness: the theorem applied to the concrete all-sizes-one source. -/
theorem claim_C10_witness :
    create_xs_vars srcGood = Except.ok xsGood
    ∧ (xsGood.qhat.data.length = xsGood.q.data.length
       ∧ ∀ (t : Nat) (row : MRow), xsGood.q.data[t]? = some row →
           xsGood.qhat.data[t]? = some (maskedMeanRow row)
           ∧ (maskedMeanRow row = none ↔ ∀ e ∈ row, e = none)
           ∧ ∀ m, maskedMeanRow row = some m →
               m = (unmaskedRow row).sum / (unmaskedRow row).length) :=
  ⟨create_xs_vars_srcGood, claim_C10 srcGood xsGood create_xs_vars_srcGood⟩

end Relabel
